import Mathlib

/-!
# Verification of the communex module-server admission pipeline

Shallow embedding of the request-signing protocol, the verifier chain,
the input-handler verifier, the list verifier and the stake-weighted
token-bucket rate limiter of the `communex` repository
(`src/communex/module/...`), together with theorems settling the
specification claims about them.

Conventions of the embedding:
* Python `bytes` are modelled as `List Nat` (each element a byte value);
  the JSON text bodies exchanged on the wire are modelled as `String`.
* Python `dict`s (which preserve insertion order) are modelled as ordered
  association lists `List (String × α)`; assignment `d[k] = v` is
  `setField` (replace in place, else append), `d.get(k)` is `lookupStr`.
* `float` quantities of the rate limiter (tokens, monotonic time, ratios)
  are modelled as `ℚ`.
* External collaborators (the `sr25519` primitives, `ss58` decoding,
  `json.loads`, `datetime.fromisoformat`, the blockchain client and the
  monotonic clock) are parameters of the embedded functions; stdlib
  behaviour the code relies on (e.g. `json.loads (json.dumps x) = x`)
  enters theorems as an explicit hypothesis.
* A raised Python exception is an `Except.error` carrying the exception
  class name and message.
-/

namespace Communex

/-- A raised Python exception: class name and message. -/
structure PyExc where
  cls : String
  msg : String
deriving DecidableEq, Repr

/-- Body of a JSON error response: either the plain
`\x7b"error": msg\x7d` shape or the `json_error` envelope
`\x7b"error": \x7b"code": c, "message": m\x7d\x7d` (module `_util.py`). -/
inductive RespBody where
  | plainError (msg : String)
  | codedError (code : Nat) (msg : String)
deriving DecidableEq, Repr

/-- A `JSONResponse`: HTTP status code plus body. -/
structure Resp where
  status : Nat
  body : RespBody
deriving DecidableEq, Repr

/-- `json_error(code, message)` from `communex/module/_util.py`. -/
def jsonError (code : Nat) (message : String) : Resp :=
  ⟨code, RespBody.codedError code message⟩

/-! ## JSON values (ordered objects, as Python dicts preserve order) -/

/-- JSON values. Objects are ordered association lists, mirroring Python
dict insertion order, which `json.dumps` serializes in order. -/
inductive Json where
  | null
  | bool (b : Bool)
  | num (n : Int)
  | str (s : String)
  | arr (elems : List Json)
  | obj (fields : List (String × Json))
deriving Repr

/-- Python dict assignment `d[k] = v`: replace the first binding of `k`
in place, otherwise append at the end (insertion order). -/
def setField (fs : List (String × Json)) (k : String) (v : Json) :
    List (String × Json) :=
  match fs with
  | [] => [(k, v)]
  | (k', v') :: rest =>
      if k' = k then (k, v) :: rest else (k', v') :: setField rest k v

/-- Python `d.get(k)`: first binding of `k`, if any. -/
def lookupStr {α : Type} (fs : List (String × α)) (k : String) : Option α :=
  match fs with
  | [] => none
  | (k', v) :: rest => if k' = k then some v else lookupStr rest k

/-- Python truthiness of a JSON value (`not x`):
`None`, `False`, `0`, `""`, `[]` and `\x7b\x7d` are falsy. -/
def pyTruthy : Json → Bool
  | Json.null => false
  | Json.bool b => b
  | Json.num n => n ≠ 0
  | Json.str s => s ≠ ""
  | Json.arr es => ¬ es.isEmpty
  | Json.obj fs => ¬ fs.isEmpty

/-- Python `==` between a JSON value and a string: only a string JSON
value can equal a `str`. -/
def jsonEqStr (j : Json) (s : String) : Bool :=
  match j with
  | Json.str s' => s' = s
  | _ => false

/-! ## `json.dumps` with default separators (`", "`, `": "`) -/

/-- Escape a character for a JSON string literal (quote and backslash;
other characters of the inputs we model need no escaping). -/
def escapeChar (c : Char) : List Char :=
  if c = '"' then ['\\', '"']
  else if c = '\\' then ['\\', '\\']
  else [c]

/-- Serialize a string to a JSON string literal. -/
def serializeStr (s : String) : String :=
  "\"" ++ String.mk (s.toList.flatMap escapeChar) ++ "\""

mutual

/-- `json.dumps` with Python's default formatting:
item separator `", "`, key separator `": "`. -/
def Json.serialize : Json → String
  | Json.null => "null"
  | Json.bool true => "true"
  | Json.bool false => "false"
  | Json.num n => toString n
  | Json.str s => serializeStr s
  | Json.arr es => "[" ++ serializeElems es ++ "]"
  | Json.obj fs => "\x7b" ++ serializeFields fs ++ "\x7d"

/-- Comma-separated serialization of array elements. -/
def serializeElems : List Json → String
  | [] => ""
  | [j] => Json.serialize j
  | j :: rest => Json.serialize j ++ ", " ++ serializeElems rest

/-- Comma-separated serialization of object fields. -/
def serializeFields : List (String × Json) → String
  | [] => ""
  | [(k, v)] => serializeStr k ++ ": " ++ Json.serialize v
  | (k, v) :: rest =>
      serializeStr k ++ ": " ++ Json.serialize v ++ ", " ++
        serializeFields rest

end

/-! ## Hex encoding (`bytes.hex`, `bytes.fromhex`, helpers of
`module_routers.py`) -/

/-- Lowercase hex digit for a value below 16 (as `bytes.hex` emits). -/
def hexDigitChar (n : Nat) : Char :=
  if n < 10 then Char.ofNat (48 + n) else Char.ofNat (87 + n)

/-- The two hex characters of one byte. -/
def byteHexChars (b : Nat) : List Char :=
  [hexDigitChar (b / 16 % 16), hexDigitChar (b % 16)]

/-- Python `bytes.hex()`: lowercase, two digits per byte. -/
def bytesToHex (bs : List Nat) : String :=
  String.mk (bs.flatMap byteHexChars)

/-- Is the character one of `0-9a-fA-F`? -/
def isHexDigit (c : Char) : Bool :=
  (48 ≤ c.toNat ∧ c.toNat ≤ 57) ∨ (97 ≤ c.toNat ∧ c.toNat ≤ 102) ∨
    (65 ≤ c.toNat ∧ c.toNat ≤ 70)

/-- `is_hex_string` from `module_routers.py`: the regex
`[0-9a-fA-F]+` anchored at both ends. -/
def isHexString (s : String) : Bool :=
  ¬ s.toList.isEmpty ∧ s.toList.all isHexDigit

/-- Numeric value of a hex digit character. -/
def hexDigitVal (c : Char) : Option Nat :=
  if 48 ≤ c.toNat ∧ c.toNat ≤ 57 then some (c.toNat - 48)
  else if 97 ≤ c.toNat ∧ c.toNat ≤ 102 then some (c.toNat - 87)
  else if 65 ≤ c.toNat ∧ c.toNat ≤ 70 then some (c.toNat - 55)
  else none

/-- `bytes.fromhex` on a character list: pairs of hex digits. -/
def fromHexPairs : List Char → Option (List Nat)
  | [] => some []
  | [_] => none
  | c1 :: c2 :: rest =>
      match hexDigitVal c1, hexDigitVal c2, fromHexPairs rest with
      | some h, some l, some bs => some ((16 * h + l) :: bs)
      | _, _, _ => none

/-- `parse_hex` from `module_routers.py`: if the first two characters
are `0x` strip them, then `bytes.fromhex`. -/
def parseHex (s : String) : Option (List Nat) :=
  if s.toList.take 2 = ['0', 'x'] then fromHexPairs (s.toList.drop 2)
  else fromHexPairs s.toList

/-! ## The signer (`communex/module/_signer.py`)

`sr25519.sign` / `sr25519.verify` are external native primitives; they
are parameters of the context. `KeypairType.SR25519 = 1` (substrate
convention). -/

/-- A substrate keypair: public/private key bytes, crypto-scheme tag and
ss58 address. -/
structure Keypair where
  publicKey : List Nat
  privateKey : List Nat
  cryptoType : Nat
  ss58Address : String

/-- External collaborators of the protocol: the sr25519 primitives,
ss58 decoding (`try_ss58_decode` wraps the external `ss58_encode`) and
`json.loads`. `srVerify` takes `(signature, data, pubkey)` in the
argument order of `sr25519.verify`. -/
structure ProtoCtx where
  srSign : List Nat → List Nat → String → List Nat
  srVerify : List Nat → String → List Nat → Bool
  ss58DecodeBytes : List Nat → Option String
  jsonLoads : String → Option Json

/-- `sign` from `_signer.py`: only `KeypairType.SR25519` (tag 1) is
implemented; any other scheme raises a plain
`Exception("Crypto type \x7bn\x7d not supported")`. -/
def signerSign (ctx : ProtoCtx) (keypair : Keypair) (data : String) :
    Except PyExc (List Nat) :=
  if keypair.cryptoType = 1 then
    Except.ok (ctx.srSign keypair.publicKey keypair.privateKey data)
  else
    Except.error ⟨"Exception",
      "Crypto type " ++ toString keypair.cryptoType ++ " not supported"⟩

/-- `verify` from `_signer.py`: straight sr25519 verification, retried
with the `<Bytes>...</Bytes>` wrap on failure; an unsupported crypto tag
raises `ConfigurationError`. -/
def signerVerify (ctx : ProtoCtx) (pubkey : List Nat) (cryptoType : Int)
    (data : String) (signature : List Nat) : Except PyExc Bool :=
  if cryptoType = 1 then
    Except.ok
      (if ctx.srVerify signature data pubkey then true
       else ctx.srVerify signature ("<Bytes>" ++ data ++ "</Bytes>") pubkey)
  else
    Except.error ⟨"ConfigurationError", "Crypto type not supported"⟩

/-! ## The client protocol (`communex/module/_protocol.py`) -/

/-- The headers built by `create_headers`. -/
structure ClientHeaders where
  contentType : String
  xSignature : String
  xKey : String
  xCrypto : String
  xTimestamp : String

/-- `create_headers` from `_protocol.py`. -/
def createHeaders (signature : List Nat) (myKey : Keypair)
    (timestampIso : String) : ClientHeaders :=
  { contentType := "application/json"
    xSignature := bytesToHex signature
    xKey := bytesToHex myKey.publicKey
    xCrypto := toString myKey.cryptoType
    xTimestamp := timestampIso }

/-- `create_request_data` from `_protocol.py`. The ISO timestamp
(`iso_timestamp_now()`, an external clock read) is a parameter. Injects
`target_key` into `params`, serializes the pre-timestamp structure as
the body to send, appends `timestamp` and serializes again to obtain
the bytes that are signed. -/
def createRequestData (ctx : ProtoCtx) (myKey : Keypair)
    (targetKey : String) (params : List (String × Json))
    (timestampIso : String) :
    Except PyExc (String × ClientHeaders) :=
  let params' := setField params "target_key" (Json.str targetKey)
  let requestData : List (String × Json) := [("params", Json.obj params')]
  let serializedData := Json.serialize (Json.obj requestData)
  let requestData' := setField requestData "timestamp" (Json.str timestampIso)
  let serializedStampedData := Json.serialize (Json.obj requestData')
  match signerSign ctx myKey serializedStampedData with
  | Except.error e => Except.error e
  | Except.ok signature =>
      Except.ok (serializedData, createHeaders signature myKey timestampIso)

/-! ## Server side: `InputHandlerVerifier._check_signature`
(`communex/module/routers/module_routers.py`) -/

/-- The headers dictionary assembled by `_get_headers_dict`: the three
required lowercase headers plus the optional `x-timestamp` (inserted
only when present and truthy). -/
structure HeadersDict where
  xSignature : String
  xKey : String
  xCrypto : String
  xTimestamp : Option String

/-- The server reads the headers the client sent (HTTP headers are
case-insensitive; the legacy timestamp header is present). -/
def headersToDict (h : ClientHeaders) : HeadersDict :=
  { xSignature := h.xSignature
    xKey := h.xKey
    xCrypto := h.xCrypto
    xTimestamp := some h.xTimestamp }

/-- Decimal digit value of a character, if it is a digit. -/
def digitVal (c : Char) : Option Nat :=
  if 48 ≤ c.toNat ∧ c.toNat ≤ 57 then some (c.toNat - 48) else none

/-- Accumulating decimal parser over a character list. -/
def decNat : List Char → Nat → Option Nat
  | [], acc => some acc
  | c :: rest, acc =>
      match digitVal c with
      | some d => decNat rest (10 * acc + d)
      | none => none

/-- Python `int(s)` (optional sign, decimal digits); raises
`ValueError` on a non-numeric string. -/
def pyInt (s : String) : Except PyExc Int :=
  let sign : Bool × List Char :=
    match s.toList with
    | '-' :: rest => (true, rest)
    | cs => (false, cs)
  match sign with
  | (neg, ds) =>
      if ds.isEmpty then Except.error ⟨"ValueError", "invalid literal for int"⟩
      else
        match decNat ds 0 with
        | some n => Except.ok (if neg then -(n : Int) else (n : Int))
        | none => Except.error ⟨"ValueError", "invalid literal for int"⟩

/-- Python truthiness of `headers_dict.get("x-timestamp")`:
present and non-empty. -/
def optStrTruthy : Option String → Bool
  | none => false
  | some s => s ≠ ""

/-- The legacy stamped body computed by `_check_signature`:
`json.loads` the raw body, assign `json_body["timestamp"] = timestamp`,
`json.dumps` again. A body that is not valid JSON or not an object
raises. -/
def legacyStampedBody (loads : String → Option Json) (body : String)
    (timestamp : String) : Except PyExc String :=
  match loads body with
  | none => Except.error ⟨"JSONDecodeError", "Expecting value"⟩
  | some (Json.obj fs) =>
      Except.ok (Json.serialize
        (Json.obj (setField fs "timestamp" (Json.str timestamp))))
  | some _ => Except.error ⟨"TypeError", "item assignment on non-object"⟩

/-- `InputHandlerVerifier._check_signature`: hex checks on key and
signature, ss58 decodability of the caller key, legacy (timestamp
header spliced into the parsed body) and current (raw body) signature
verification, then the `target_key` binding check against the server's
own `module_key`. `Except.ok none` models the source's `(True, None)`,
`Except.ok (some r)` models `(False, r)`. -/
def checkSignature (ctx : ProtoCtx) (headersDict : HeadersDict)
    (body : String) (moduleKey : String) : Except PyExc (Option Resp) :=
  let key := headersDict.xKey
  let signatureHex := headersDict.xSignature
  match pyInt headersDict.xCrypto with
  | Except.error e => Except.error e
  | Except.ok crypto =>
  if ¬ isHexString key then
    Except.ok (some (jsonError 400 "X-Key should be a hex value"))
  else
  match parseHex signatureHex with
  | none =>
      Except.ok (some (jsonError 400 "Signature sent is not a valid hex value"))
  | some signature =>
  match parseHex key with
  | none =>
      Except.ok (some (jsonError 400 "Key sent is not a valid hex value"))
  | some keyBytes =>
  match ctx.ss58DecodeBytes keyBytes with
  | none =>
      Except.ok (some (jsonError 400
        "Caller key could not be decoded into a ss58address"))
  | some _keySs58 =>
  let timestamp := headersDict.xTimestamp
  match (if optStrTruthy timestamp then
           match timestamp with
           | some ts =>
               (legacyStampedBody ctx.jsonLoads body ts).bind
                 (fun stamped => signerVerify ctx keyBytes crypto stamped signature)
           | none => Except.ok false
         else Except.ok false) with
  | Except.error e => Except.error e
  | Except.ok legacyVerified =>
  match signerVerify ctx keyBytes crypto body signature with
  | Except.error e => Except.error e
  | Except.ok verified =>
  if ¬ verified ∧ ¬ legacyVerified then
    Except.ok (some (jsonError 401 "Signatures doesn't match"))
  else
  match ctx.jsonLoads body with
  | none => Except.error ⟨"JSONDecodeError", "Expecting value"⟩
  | some (Json.obj bodyFields) =>
      match lookupStr bodyFields "params" with
      | none => Except.error ⟨"KeyError", "params"⟩
      | some (Json.obj paramFields) =>
          match lookupStr paramFields "target_key" with
          | none => Except.ok (some (jsonError 401 "Wrong target_key in body"))
          | some tk =>
              if ¬ pyTruthy tk ∨ ¬ jsonEqStr tk moduleKey then
                Except.ok (some (jsonError 401 "Wrong target_key in body"))
              else Except.ok none
      | some _ =>
          Except.error ⟨"AttributeError", "object has no attribute get"⟩
  | some _ => Except.error ⟨"TypeError", "body is not an object"⟩

/-! ## Helper lemmas: hex round-trip and ordered-dict lookup -/

theorem hexDigitVal_hexDigitChar :
    ∀ n < 16, hexDigitVal (hexDigitChar n) = some n := by decide

theorem hexDigitChar_ne_x : ∀ n < 16, hexDigitChar n ≠ 'x' := by decide

theorem isHexDigit_hexDigitChar :
    ∀ n < 16, isHexDigit (hexDigitChar n) = true := by decide

theorem fromHexPairs_flatMap (bs : List Nat) (h : ∀ b ∈ bs, b < 256) :
    fromHexPairs (bs.flatMap byteHexChars) = some bs := by
  induction bs with
  | nil => rfl
  | cons b rest ih =>
    have hb : b < 256 := h b (List.mem_cons_self b rest)
    have hdiv : b / 16 < 16 := Nat.div_lt_of_lt_mul (by omega)
    have hmod : b % 16 < 16 := Nat.mod_lt _ (by omega)
    have h1 : hexDigitVal (hexDigitChar (b / 16 % 16)) = some (b / 16 % 16) :=
      hexDigitVal_hexDigitChar _ (Nat.mod_lt _ (by omega))
    have h2 : hexDigitVal (hexDigitChar (b % 16)) = some (b % 16) :=
      hexDigitVal_hexDigitChar _ hmod
    have ih' := ih (fun x hx => h x (List.mem_cons_of_mem b hx))
    rw [List.flatMap_cons]
    change fromHexPairs (hexDigitChar (b / 16 % 16) ::
      hexDigitChar (b % 16) :: rest.flatMap byteHexChars) = _
    simp only [fromHexPairs, h1, h2, ih']
    have : 16 * (b / 16 % 16) + b % 16 = b := by
      rw [Nat.mod_eq_of_lt hdiv]
      omega
    rw [this]

theorem toList_bytesToHex (bs : List Nat) :
    (bytesToHex bs).toList = bs.flatMap byteHexChars := rfl

theorem parseHex_bytesToHex (bs : List Nat) (h : ∀ b ∈ bs, b < 256) :
    parseHex (bytesToHex bs) = some bs := by
  unfold parseHex
  rw [toList_bytesToHex]
  cases bs with
  | nil => rfl
  | cons b rest =>
    have hb : b < 256 := h b (List.mem_cons_self b rest)
    have hx : hexDigitChar (b % 16) ≠ 'x' :=
      hexDigitChar_ne_x _ (Nat.mod_lt _ (by omega))
    have hne : ((b :: rest).flatMap byteHexChars).take 2 ≠ ['0', 'x'] := by
      simp only [List.flatMap_cons, byteHexChars, List.cons_append,
        List.nil_append, List.take_succ_cons, List.take_zero]
      intro hcontra
      simp only [List.cons.injEq, and_true] at hcontra
      exact hx hcontra.2
    rw [if_neg hne]
    exact fromHexPairs_flatMap _ h

theorem isHexString_bytesToHex (bs : List Nat) (hne : bs ≠ [])
    (h : ∀ b ∈ bs, b < 256) : isHexString (bytesToHex bs) = true := by
  unfold isHexString
  rw [toList_bytesToHex, decide_eq_true_eq]
  constructor
  · cases bs with
    | nil => exact absurd rfl hne
    | cons b rest =>
      rw [List.flatMap_cons]
      change ¬ (hexDigitChar (b / 16 % 16) ::
        hexDigitChar (b % 16) :: rest.flatMap byteHexChars).isEmpty = true
      simp [List.isEmpty]
  · rw [List.all_eq_true]
    intro c hc
    rw [List.mem_flatMap] at hc
    obtain ⟨b, hb, hcb⟩ := hc
    have hb256 : b < 256 := h b hb
    unfold byteHexChars at hcb
    rw [List.mem_cons, List.mem_cons] at hcb
    rcases hcb with h1 | h1 | h1
    · exact h1 ▸ isHexDigit_hexDigitChar _ (Nat.mod_lt _ (by omega))
    · exact h1 ▸ isHexDigit_hexDigitChar _ (Nat.mod_lt _ (by omega))
    · exact absurd h1 (List.not_mem_nil c)

theorem lookupStr_setField (fs : List (String × Json)) (k : String)
    (v : Json) : lookupStr (setField fs k v) k = some v := by
  induction fs with
  | nil => simp [setField, lookupStr]
  | cons p rest ih =>
    obtain ⟨k', v'⟩ := p
    by_cases hk : k' = k
    · subst hk
      simp [setField, lookupStr]
    · simp [setField, lookupStr, hk, ih]

/-! ## Claim C1 -/

/-- C1: for every keypair, target identity and params map, the
`(body_bytes, headers)` pair produced by `create_request_data` is
accepted by the server-side `_check_signature` when the server's
`module_key` equals the target identity. The conjunction makes the
mechanism explicit: splicing the `X-Timestamp` header value into the
parsed body (the legacy path) reproduces exactly the timestamp-stamped
serialization the client signed, and the whole check passes
(`Except.ok none` = `(True, None)`). Hypotheses: an SR25519 keypair
with well-formed byte values, a correct external sr25519
verifier/signer pair, a decodable caller key, the `json.loads`
round-trip on the serialized body, and non-empty (truthy) timestamp
and target strings. -/
theorem claim_C1_create_request_data_accepted
    (ctx : ProtoCtx) (kp : Keypair) (target : String)
    (params : List (String × Json)) (ts : String)
    (body : String) (hdrs : ClientHeaders)
    (hcrypto : kp.cryptoType = 1)
    (hpubne : kp.publicKey ≠ [])
    (hpub : ∀ b ∈ kp.publicKey, b < 256)
    (hsig : ∀ d, ∀ b ∈ ctx.srSign kp.publicKey kp.privateKey d, b < 256)
    (hver : ∀ d,
      ctx.srVerify (ctx.srSign kp.publicKey kp.privateKey d) d kp.publicKey = true)
    (hss58 : (ctx.ss58DecodeBytes kp.publicKey).isSome = true)
    (hloads : ctx.jsonLoads (Json.serialize (Json.obj
        [("params", Json.obj (setField params "target_key" (Json.str target)))])) =
      some (Json.obj
        [("params", Json.obj (setField params "target_key" (Json.str target)))]))
    (hts : ts ≠ "")
    (htarget : target ≠ "")
    (hreq : createRequestData ctx kp target params ts = Except.ok (body, hdrs)) :
    legacyStampedBody ctx.jsonLoads body ts = Except.ok (Json.serialize (Json.obj
      (setField [("params", Json.obj (setField params "target_key" (Json.str target)))]
        "timestamp" (Json.str ts)))) ∧
    checkSignature ctx (headersToDict hdrs) body target = Except.ok none := by
  simp only [createRequestData, signerSign, hcrypto, if_pos,
    Except.ok.injEq, Prod.mk.injEq] at hreq
  obtain ⟨hbody, hhdrs⟩ := hreq
  subst hbody
  subst hhdrs
  have hstamp : legacyStampedBody ctx.jsonLoads
      (Json.serialize (Json.obj
        [("params", Json.obj (setField params "target_key" (Json.str target)))])) ts =
      Except.ok (Json.serialize (Json.obj
        (setField [("params", Json.obj (setField params "target_key" (Json.str target)))]
          "timestamp" (Json.str ts)))) := by
    simp [legacyStampedBody, hloads]
  refine ⟨hstamp, ?_⟩
  obtain ⟨s58, hs58⟩ := Option.isSome_iff_exists.mp hss58
  have hint : pyInt (toString (1 : Nat)) = Except.ok 1 := by
    have h1 : toString (1 : Nat) = "1" := rfl
    rw [h1]
    simp [pyInt, decNat, digitVal]
  have hhex : isHexString (bytesToHex kp.publicKey) = true :=
    isHexString_bytesToHex _ hpubne hpub
  have hpxsig : parseHex (bytesToHex (ctx.srSign kp.publicKey kp.privateKey
      (Json.serialize (Json.obj
        (setField [("params", Json.obj (setField params "target_key" (Json.str target)))]
          "timestamp" (Json.str ts)))))) =
      some (ctx.srSign kp.publicKey kp.privateKey
      (Json.serialize (Json.obj
        (setField [("params", Json.obj (setField params "target_key" (Json.str target)))]
          "timestamp" (Json.str ts))))) :=
    parseHex_bytesToHex _ (hsig _)
  have hpxkey : parseHex (bytesToHex kp.publicKey) = some kp.publicKey :=
    parseHex_bytesToHex _ hpub
  have hlegver : signerVerify ctx kp.publicKey 1
      (Json.serialize (Json.obj
        (setField [("params", Json.obj (setField params "target_key" (Json.str target)))]
          "timestamp" (Json.str ts))))
      (ctx.srSign kp.publicKey kp.privateKey
        (Json.serialize (Json.obj
          (setField [("params", Json.obj (setField params "target_key" (Json.str target)))]
            "timestamp" (Json.str ts))))) = Except.ok true := by
    simp [signerVerify, hver]
  have hlp : lookupStr
      [("params", Json.obj (setField params "target_key" (Json.str target)))]
      "params" =
      some (Json.obj (setField params "target_key" (Json.str target))) := by
    simp [lookupStr]
  simp only [checkSignature, headersToDict, createHeaders, hcrypto, hint,
    hhex, not_true_eq_false, if_false, hpxsig, hpxkey, hs58, optStrTruthy,
    hts, decide_not, hstamp, Except.bind, hlegver, hloads, hlp,
    lookupStr_setField]
  simp only [signerVerify, if_pos]
  simp [pyTruthy, jsonEqStr, htarget, hlp, lookupStr_setField]

/-- Concrete request body used to instantiate claim C1. -/
def witJsonBody : Json :=
  Json.obj [("params", Json.obj [("target_key", Json.str "T")])]

/-- Concrete timestamp used to instantiate claim C1. -/
def witTs : String := "2024-01-01T00:00:00+00:00"

/-- Concrete stamped body used to instantiate claim C1. -/
def witStamped : Json :=
  Json.obj [("params", Json.obj [("target_key", Json.str "T")]),
    ("timestamp", Json.str witTs)]

/-- Concrete external collaborators used to instantiate claim C1:
a toy signature scheme (the signature of a message is its length mod
256), a constant ss58 decoder, and a `json.loads` that inverts
`Json.serialize` on the one body value in play. -/
def witCtx : ProtoCtx :=
  { srSign := fun _ _ d => [d.length % 256]
    srVerify := fun sg d _ => sg == [d.length % 256]
    ss58DecodeBytes := fun _ => some "caller-ss58"
    jsonLoads := fun s =>
      if s == Json.serialize witJsonBody then some witJsonBody else none }

/-- Concrete SR25519 keypair used to instantiate claim C1. -/
def witKp : Keypair := ⟨[1, 2], [3, 4], 1, "server-ss58"⟩

/-- Concrete body bytes produced by the client in claim C1's witness. -/
def witBody : String := Json.serialize witJsonBody

/-- Concrete signature bytes in claim C1's witness. -/
def witSig : List Nat := [(Json.serialize witStamped).length % 256]

/-- Concrete headers produced by the client in claim C1's witness. -/
def witHdrs : ClientHeaders := createHeaders witSig witKp witTs

/-- Witness for C1 at a concrete keypair, target and params map. -/
theorem claim_C1_witness :
    legacyStampedBody witCtx.jsonLoads witBody witTs =
      Except.ok (Json.serialize witStamped) ∧
    checkSignature witCtx (headersToDict witHdrs) witBody "T" =
      Except.ok none := by
  have h := claim_C1_create_request_data_accepted witCtx witKp "T" [] witTs
    witBody witHdrs rfl (by decide) (by decide)
    (by
      intro d b hb
      simp only [witCtx, List.mem_singleton] at hb
      subst hb
      exact Nat.mod_lt _ (by omega))
    (by
      intro d
      simp [witCtx])
    rfl
    (by simp [witCtx, witJsonBody, setField])
    (by decide) (by decide) rfl
  exact h

/-! ## The verifier chain (`build_route_class`) -/

/-- Python `str.startswith`. -/
def pyStartsWith (s pre : String) : Bool :=
  s.toList.take pre.toList.length == pre.toList

/-- The verifier loop inside `custom_route_handler`: apply each
verifier in declared order and return the first non-null response. -/
def runVerifiers {Req Rsp : Type} (verifiers : List (Req → Option Rsp))
    (request : Req) : Option Rsp :=
  match verifiers with
  | [] => none
  | v :: rest =>
      match v request with
      | some response => some response
      | none => runVerifiers rest request

/-- `custom_route_handler` built by `build_route_class`: a request whose
path is not under `/method` goes straight to the original route handler;
otherwise the verifiers run in declared order, the first non-null
rejection is returned immediately, and when all pass the original
handler's response is returned unchanged. Verifiers are modelled
extensionally as functions `Req → Option Rsp` (`none` = pass). -/
def customRouteHandler {Req Rsp : Type} (verifiers : List (Req → Option Rsp))
    (originalRouteHandler : Req → Rsp) (pathOf : Req → String)
    (request : Req) : Rsp :=
  if ¬ pyStartsWith (pathOf request) "/method" then
    originalRouteHandler request
  else
    match runVerifiers verifiers request with
    | some response => response
    | none => originalRouteHandler request

/-! ## Claim C2 -/

/-- C2: for every request under the `/method` namespace and every
ordered verifier sequence, the route handler built by
`build_route_class` (a) returns the first non-null rejection
immediately — the result equals that rejection for every choice of the
later verifiers and of the handler, so neither is invoked — and
(b) when every verifier returns null, invokes the original handler and
returns its response unchanged. -/
theorem claim_C2_route_handler_first_rejection {Req Rsp : Type}
    (pathOf : Req → String) (request : Req)
    (hpath : pyStartsWith (pathOf request) "/method" = true) :
    (∀ (before : List (Req → Option Rsp)) (v : Req → Option Rsp)
        (after : List (Req → Option Rsp)) (r : Rsp) (handler : Req → Rsp),
        (∀ u ∈ before, u request = none) → v request = some r →
        customRouteHandler (before ++ v :: after) handler pathOf request = r) ∧
    (∀ (verifiers : List (Req → Option Rsp)) (handler : Req → Rsp),
        (∀ u ∈ verifiers, u request = none) →
        customRouteHandler verifiers handler pathOf request = handler request) := by
  constructor
  · intro before v after r handler hbefore hv
    unfold customRouteHandler
    rw [hpath]
    simp only [not_true_eq_false, if_false]
    induction before with
    | nil =>
      simp [runVerifiers, hv]
    | cons u rest ih =>
      have hu : u request = none := hbefore u (List.mem_cons_self u rest)
      have hrest : ∀ w ∈ rest, w request = none :=
        fun w hw => hbefore w (List.mem_cons_of_mem u hw)
      simp only [List.cons_append, runVerifiers, hu]
      exact ih hrest
  · intro verifiers handler hall
    unfold customRouteHandler
    rw [hpath]
    simp only [not_true_eq_false, if_false]
    induction verifiers with
    | nil => rfl
    | cons u rest ih =>
      have hu : u request = none := hall u (List.mem_cons_self u rest)
      have hrest : ∀ w ∈ rest, w request = none :=
        fun w hw => hall w (List.mem_cons_of_mem u hw)
      simp only [runVerifiers, hu]
      exact ih hrest

/-- Witness for C2 at a concrete request: the second verifier rejects
with response 7 and the result is 7 for an arbitrary later verifier and
handler; with all verifiers passing the handler's response 9 is
returned unchanged. -/
theorem claim_C2_witness :
    customRouteHandler
      [fun _ => none, fun _ => some 7, fun _ => some 8]
      (fun _ => 9) (fun _ => "/method/foo") (0 : Nat) = (7 : Nat) ∧
    customRouteHandler [fun _ => (none : Option Nat)]
      (fun _ => 9) (fun _ => "/method/foo") (0 : Nat) = 9 := by
  have h := @claim_C2_route_handler_first_rejection Nat Nat
    (fun _ => "/method/foo") (0 : Nat) (by decide)
  constructor
  · exact h.1 [fun _ => none] (fun _ => some 7) [fun _ => some 8] 7 (fun _ => 9)
      (by
        intro u hu
        rw [List.mem_singleton] at hu
        subst hu
        rfl)
      rfl
  · exact h.2 [fun _ => none] (fun _ => 9)
      (by
        intro u hu
        rw [List.mem_singleton] at hu
        subst hu
        rfl)

/-! ## `InputHandlerVerifier.verify`: timestamp selection and staleness

The phase of `verify` that runs after `_check_inputs` has passed:

    timestamp = body_dict["params"].get("timestamp", None)
    legacy_timestamp = request.headers.get("X-Timestamp", None)
    timestamp_to_use = timestamp if not legacy_timestamp else legacy_timestamp
    request_time = datetime.fromisoformat(timestamp_to_use)   # 400 on failure
    if (now - request_time).total_seconds() > request_staleness: 400 stale

`datetime.fromisoformat` is an external parser parameter returning the
instant in seconds (`ℚ`); a `None` or non-string argument raises, which
the `except` clause turns into the same 400 response. -/

/-- The value `timestamp_to_use`: the legacy `X-Timestamp` header when
it is truthy (present and non-empty), otherwise `params.timestamp`. -/
def chooseTimestamp (bodyParams : List (String × Json))
    (legacyTimestamp : Option String) : Option Json :=
  if optStrTruthy legacyTimestamp then legacyTimestamp.map Json.str
  else lookupStr bodyParams "timestamp"

/-- Parse the chosen timestamp and evaluate staleness: absent or
unparseable value ⇒ 400 "Invalid ISO timestamp given"; parsed instant
older than the staleness window ⇒ 400 "Request is too stale";
otherwise pass. -/
def evalChosenTimestamp (fromIso : String → Option ℚ) (now : ℚ)
    (staleness : Int) (chosen : Option Json) : Option Resp :=
  match chosen with
  | some (Json.str s) =>
      match fromIso s with
      | some requestTime =>
          if now - requestTime > (staleness : ℚ) then
            some ⟨400, RespBody.plainError "Request is too stale"⟩
          else none
      | none => some ⟨400, RespBody.plainError "Invalid ISO timestamp given"⟩
  | _ => some ⟨400, RespBody.plainError "Invalid ISO timestamp given"⟩

/-- The timestamp/staleness phase of `InputHandlerVerifier.verify`. -/
def verifyTimestampPhase (fromIso : String → Option ℚ) (now : ℚ)
    (staleness : Int) (bodyParams : List (String × Json))
    (legacyTimestamp : Option String) : Option Resp :=
  evalChosenTimestamp fromIso now staleness
    (chooseTimestamp bodyParams legacyTimestamp)

/-! ## Claim C3 -/

/-- Concrete ISO parser for the C3 counterexample: timestamp `"A"`
denotes instant 100, timestamp `"B"` denotes instant 0. -/
def c3FromIso : String → Option ℚ := fun s =>
  if s = "A" then some 100 else if s = "B" then some 0 else none

/-- C3 counterexample: at now = 100 with staleness 5, a request whose
body carries `params.timestamp = "A"` (instant 100, fresh) and whose
legacy `X-Timestamp` header is `"B"` (instant 0, stale) is rejected 400
"Request is too stale", while the identical request without the header
passes — so when both are present the code evaluates staleness against
the legacy header, not against `params.timestamp` as the claim
states. -/
theorem claim_C3_counterexample :
    verifyTimestampPhase c3FromIso 100 5 [("timestamp", Json.str "A")]
        (some "B") =
      some ⟨400, RespBody.plainError "Request is too stale"⟩ ∧
    verifyTimestampPhase c3FromIso 100 5 [("timestamp", Json.str "A")]
        none =
      none := by
  have h1 : chooseTimestamp [("timestamp", Json.str "A")] (some "B") =
      some (Json.str "B") := rfl
  have h2 : chooseTimestamp [("timestamp", Json.str "A")] none =
      some (Json.str "A") := rfl
  have h3 : c3FromIso "B" = some 0 := rfl
  have h4 : c3FromIso "A" = some 100 := rfl
  constructor
  · simp only [verifyTimestampPhase, h1, evalChosenTimestamp, h3]
    norm_num
  · simp only [verifyTimestampPhase, h2, evalChosenTimestamp, h4]
    norm_num

/-- C3 (amended): the legacy `X-Timestamp` header takes precedence:
when it is present and non-empty the staleness timestamp is the header
value, and `params.timestamp` is used only when the header is absent or
empty; if the chosen value is absent or not parseable as ISO-8601 the
request is rejected 400 ("Invalid ISO timestamp given"). -/
theorem claim_C3_amended_header_precedence
    (fromIso : String → Option ℚ) (now : ℚ) (staleness : Int)
    (bodyParams : List (String × Json)) :
    (∀ l : String, l ≠ "" →
      chooseTimestamp bodyParams (some l) = some (Json.str l)) ∧
    (∀ legacy : Option String, optStrTruthy legacy = false →
      chooseTimestamp bodyParams legacy = lookupStr bodyParams "timestamp") ∧
    (∀ legacy : Option String, chooseTimestamp bodyParams legacy = none →
      verifyTimestampPhase fromIso now staleness bodyParams legacy =
        some ⟨400, RespBody.plainError "Invalid ISO timestamp given"⟩) ∧
    (∀ (legacy : Option String) (s : String),
      chooseTimestamp bodyParams legacy = some (Json.str s) →
      fromIso s = none →
      verifyTimestampPhase fromIso now staleness bodyParams legacy =
        some ⟨400, RespBody.plainError "Invalid ISO timestamp given"⟩) := by
  refine ⟨?_, ?_, ?_, ?_⟩
  · intro l hl
    simp [chooseTimestamp, optStrTruthy, hl]
  · intro legacy hlegacy
    simp [chooseTimestamp, hlegacy]
  · intro legacy hchosen
    simp [verifyTimestampPhase, hchosen, evalChosenTimestamp]
  · intro legacy s hchosen hparse
    simp [verifyTimestampPhase, hchosen, evalChosenTimestamp, hparse]

/-- Witness for C3's amended claim at concrete inputs. -/
theorem claim_C3_amended_witness :
    chooseTimestamp [("timestamp", Json.str "A")] (some "B") =
      some (Json.str "B") ∧
    chooseTimestamp [("timestamp", Json.str "A")] none =
      some (Json.str "A") ∧
    verifyTimestampPhase c3FromIso 100 5 [] none =
      some ⟨400, RespBody.plainError "Invalid ISO timestamp given"⟩ ∧
    verifyTimestampPhase c3FromIso 100 5 [("timestamp", Json.str "Z")] none =
      some ⟨400, RespBody.plainError "Invalid ISO timestamp given"⟩ := by
  have h := claim_C3_amended_header_precedence c3FromIso 100 5
    [("timestamp", Json.str "A")]
  refine ⟨h.1 "B" (by decide), ?_, ?_, ?_⟩
  · have h2 := h.2.1 none rfl
    rw [h2]
    rfl
  · exact (claim_C3_amended_header_precedence c3FromIso 100 5 []).2.2.1
      none rfl
  · exact (claim_C3_amended_header_precedence c3FromIso 100 5
      [("timestamp", Json.str "Z")]).2.2.2 none "Z" rfl rfl

/-! ## Claim C4 -/

/-- C4: for a request passing all other checks (the body carries a
parseable `params.timestamp` and no legacy header is present), the
verifier rejects 400 "Request is too stale" exactly when now minus the
request timestamp exceeds the staleness window; in particular a request
timestamped `now - (staleness + 1)` is rejected and one timestamped
`now - (staleness - 1)` passes. -/
theorem claim_C4_staleness_boundary
    (fromIso : String → Option ℚ) (now : ℚ) (staleness : Int)
    (bodyParams : List (String × Json)) (s : String) (requestTime : ℚ)
    (hbody : lookupStr bodyParams "timestamp" = some (Json.str s))
    (hparse : fromIso s = some requestTime) :
    (verifyTimestampPhase fromIso now staleness bodyParams none =
        some ⟨400, RespBody.plainError "Request is too stale"⟩ ↔
      now - requestTime > (staleness : ℚ)) ∧
    (requestTime = now - ((staleness : ℚ) + 1) →
      verifyTimestampPhase fromIso now staleness bodyParams none =
        some ⟨400, RespBody.plainError "Request is too stale"⟩) ∧
    (requestTime = now - ((staleness : ℚ) - 1) →
      verifyTimestampPhase fromIso now staleness bodyParams none = none) := by
  have hchosen : chooseTimestamp bodyParams none = some (Json.str s) := by
    simp [chooseTimestamp, optStrTruthy, hbody]
  have hbase : verifyTimestampPhase fromIso now staleness bodyParams none =
      if now - requestTime > (staleness : ℚ) then
        some ⟨400, RespBody.plainError "Request is too stale"⟩
      else none := by
    simp [verifyTimestampPhase, hchosen, evalChosenTimestamp, hparse]
  refine ⟨?_, ?_, ?_⟩
  · rw [hbase]
    constructor
    · intro hres
      by_contra hnot
      rw [if_neg hnot] at hres
      exact Option.noConfusion hres
    · intro hgt
      rw [if_pos hgt]
  · intro hrt
    rw [hbase, if_pos (by rw [hrt]; linarith)]
  · intro hrt
    rw [hbase, if_neg (by rw [hrt]; push_neg; linarith)]

/-- Witness for C4 at concrete inputs: now = 10, staleness = 3, request
time 0 (stale, rejected) and the boundary instances. -/
theorem claim_C4_witness :
    verifyTimestampPhase (fun t => if t = "t" then some 0 else none) 10 3
      [("timestamp", Json.str "t")] none =
      some ⟨400, RespBody.plainError "Request is too stale"⟩ := by
  exact (claim_C4_staleness_boundary
    (fun t => if t = "t" then some 0 else none) 10 3
    [("timestamp", Json.str "t")] "t" 0 rfl rfl).1.mpr
    (by norm_num)

/-! ## `ListVerifier` (`module_routers.py`) -/

/-- Python truthiness of an optional list (`if self.blacklist and ...`):
`None` and the empty list are falsy. -/
def isListTruthy {α : Type} : Option (List α) → Bool
  | none => false
  | some l => !l.isEmpty

/-- `ListVerifier.verify`: missing/empty `x-key` header ⇒ 400;
undecodable key ⇒ 400; missing client ⇒ 400; blacklisted identity ⇒
403; blacklisted IP ⇒ 403; whitelist configured and identity not in
it ⇒ 403; otherwise pass. `try_ss58_decode` (external ss58 codec) is a
parameter. -/
def listVerify (blacklist whitelist ipBlacklist : Option (List String))
    (tryDecode : String → Option String)
    (xKey : Option String) (clientHost : Option String) : Option Resp :=
  if ¬ optStrTruthy xKey then some (jsonError 400 "Missing header: X-Key")
  else
    match xKey with
    | none => some (jsonError 400 "Missing header: X-Key")
    | some key =>
        match tryDecode key with
        | none => some (jsonError 400
            "Caller key could not be decoded into a ss58address")
        | some ss58 =>
            match clientHost with
            | none => some (jsonError 400 "Address should be present in request")
            | some host =>
                if isListTruthy blacklist && (blacklist.getD []).contains ss58 then
                  some (jsonError 403 "You are blacklisted")
                else if isListTruthy ipBlacklist &&
                    (ipBlacklist.getD []).contains host then
                  some (jsonError 403 "Your IP is blacklisted")
                else if isListTruthy whitelist &&
                    !(whitelist.getD []).contains ss58 then
                  some (jsonError 403 "You are not whitelisted")
                else none

/-! ## Claim C7 -/

/-- C7: a caller identity present in both the blacklist and the
whitelist is rejected 403 "You are blacklisted" — the blacklist check
runs before the whitelist check, so the blacklist wins (for any IP
blacklist and any host). -/
theorem claim_C7_blacklist_precedence
    (blacklist wl : List String) (ipBlacklist : Option (List String))
    (tryDecode : String → Option String) (key host ss58 : String)
    (hkey : key ≠ "")
    (hdec : tryDecode key = some ss58)
    (hbl : ss58 ∈ blacklist)
    (hwl : ss58 ∈ wl) :
    listVerify (some blacklist) (some wl) ipBlacklist tryDecode
      (some key) (some host) = some (jsonError 403 "You are blacklisted") := by
  have hne : blacklist.isEmpty = false := by
    cases blacklist with
    | nil => exact absurd hbl (List.not_mem_nil ss58)
    | cons x xs => rfl
  have hcontains : blacklist.contains ss58 = true := by
    exact List.elem_iff.mpr hbl
  simp [listVerify, optStrTruthy, hkey, hdec, isListTruthy, hne, hcontains]
  intro h
  exact absurd hbl h

/-- Witness for C7 at a concrete configuration: identity `"X"` is in
both lists and the request is rejected as blacklisted. -/
theorem claim_C7_witness :
    listVerify (some ["X"]) (some ["X"]) none
      (fun k => if k = "K" then some "X" else none)
      (some "K") (some "1.2.3.4") =
      some (jsonError 403 "You are blacklisted") :=
  claim_C7_blacklist_precedence ["X"] ["X"] none
    (fun k => if k = "K" then some "X" else none) "K" "1.2.3.4" "X"
    (by decide) rfl (by simp) (by simp)

/-! ## Identity-cache fail-closed behaviour
(`_check_key_registered` in `module_routers.py`) -/

/-- The inner `query_keys` closure of `_check_key_registered`: fetch the
subnet's registered keys from the chain; on any exception log a warning
and return the empty list instead of raising. The chain call is
modelled by its outcome. -/
def queryKeys (chainResult : Except PyExc (List String)) : List String :=
  match chainResult with
  | Except.ok keys => keys
  | Except.error _ => []

/-- In-place-or-append assignment on a generic ordered association
list (Python dict assignment). -/
def setAssoc {α : Type} (fs : List (String × α)) (k : String) (v : α) :
    List (String × α) :=
  match fs with
  | [] => [(k, v)]
  | (k', v') :: rest =>
      if k' = k then (k, v) :: rest else (k', v') :: setAssoc rest k v

/-- Modelled from the spec: `TTLDict` of `communex/util/memo.py` is not
among the sources (only its callers are). Per §3, an entry is
`(key, value, insertion_time)` and `get_or_insert_lazy` lazily
recomputes and replaces the entry when `now - insertion_time > ttl` or
on a miss, otherwise returns the cached value. -/
structure TTLDict where
  ttl : ℚ
  entries : List (String × (List String × ℚ))

/-- Modelled from the spec: `TTLDict.get_or_insert_lazy` — return the
cached value when fresh; on miss or expiry call the supplied function
and store its result with the current time. -/
def getOrInsertLazy (cache : TTLDict) (now : ℚ) (key : String)
    (fn : Unit → List String) : List String × TTLDict :=
  match lookupStr cache.entries key with
  | some (value, insertedAt) =>
      if now - insertedAt > cache.ttl then
        let value' := fn ()
        (value', ⟨cache.ttl, setAssoc cache.entries key (value', now)⟩)
      else (value, cache)
  | none =>
      let value' := fn ()
      (value', ⟨cache.ttl, setAssoc cache.entries key (value', now)⟩)

/-! ## Claim C6 -/

/-- C6: when every chain query for a subnet's registered keys raises,
`query_keys` yields the empty list instead of propagating the error,
the cache lookup that has to refresh (miss or expired entry) yields the
empty list as well, and membership of any caller identity in that
result is false — fail-closed. -/
theorem claim_C6_fail_closed
    (e : PyExc) (cache : TTLDict) (now : ℚ) (cacheKey caller : String)
    (hstale : ∀ v t, lookupStr cache.entries cacheKey = some (v, t) →
      now - t > cache.ttl) :
    queryKeys (Except.error e) = [] ∧
    (getOrInsertLazy cache now cacheKey
      (fun _ => queryKeys (Except.error e))).1 = [] ∧
    caller ∉ (getOrInsertLazy cache now cacheKey
      (fun _ => queryKeys (Except.error e))).1 := by
  have hq : queryKeys (Except.error e) = [] := rfl
  have hres : (getOrInsertLazy cache now cacheKey
      (fun _ => queryKeys (Except.error e))).1 = [] := by
    unfold getOrInsertLazy
    cases hlk : lookupStr cache.entries cacheKey with
    | none => simp [hq]
    | some vt =>
        obtain ⟨v, t⟩ := vt
        have hgt := hstale v t hlk
        simp [hgt, hq]
  refine ⟨hq, hres, ?_⟩
  rw [hres]
  exact List.not_mem_nil caller

/-- Witness for C6 at a concrete failing chain and an empty cache. -/
theorem claim_C6_witness :
    (getOrInsertLazy ⟨600, []⟩ 0 "keys_on_subnet_0"
      (fun _ => queryKeys (Except.error ⟨"ConnectionError", "refused"⟩))).1 =
      [] ∧
    "caller-addr" ∉ (getOrInsertLazy ⟨600, []⟩ 0 "keys_on_subnet_0"
      (fun _ => queryKeys (Except.error ⟨"ConnectionError", "refused"⟩))).1 := by
  have h := claim_C6_fail_closed ⟨"ConnectionError", "refused"⟩ ⟨600, []⟩ 0
    "keys_on_subnet_0" "caller-addr"
    (by
      intro v t hlk
      exact absurd hlk (by simp [lookupStr]))
  exact ⟨h.2.1, h.2.2⟩

/-! ## `StakeLimiter` (`communex/module/_rate_limiters/_stake_limiter.py`)

Floats (tokens, monotonic time, ratios) are `ℚ`; `monotonic()` is the
explicit `now` argument of each public operation; the chain-derived
`build_keys_refill_rate` result used by a cache refresh is the
`refreshRatios` field of the context. -/

/-- Mutable state of a `StakeLimiter`: per-key token buckets
`key ↦ (tokens, last_seen)`, the subnets whitelist, the cached
stake-derived per-epoch ratios (`key_ratio`) with their age, the cache
age bound and the epoch length. -/
structure StakeLimiterState where
  buckets : List (String × (ℚ × ℚ))
  whitelist : Option (List Nat)
  keyRatio : List (String × ℚ)
  keyRatioAge : ℚ
  maxCacheAge : ℚ
  epoch : ℚ

/-- External collaborator of the limiter: the refill-ratio map a cache
refresh would fetch from the chain (`build_keys_refill_rate`). -/
structure StakeCtx where
  refreshRatios : List (String × ℚ)

/-- Python `max` over a list of values; `max` of an empty sequence
raises (modelled as `none`). -/
def pyMax : List ℚ → Option ℚ
  | [] => none
  | x :: xs => some (xs.foldl max x)

/-- Python `int(x)` on a float: truncation toward zero. -/
def ratTruncate (q : ℚ) : Int := if 0 ≤ q then ⌊q⌋ else ⌈q⌉

/-- `_set_tokens`: store `(tokens, monotonic())` for the key. -/
def setTokens (now : ℚ) (st : StakeLimiterState) (key : String)
    (tokens : ℚ) : StakeLimiterState :=
  { st with buckets := setAssoc st.buckets key (tokens, now) }

/-- `_get_key_refresh_ratio`: a falsy whitelist (test mode) gives the
fixed ratio 1000; otherwise the ratio cache is refreshed from the chain
when older than `max_cache_age`, and the key's cached per-epoch ratio
(default 0) is scaled by `1/epoch`, zero staying zero. Returns the
ratio together with the possibly refreshed state. -/
def getKeyRefreshRatio (ctx : StakeCtx) (now : ℚ) (st : StakeLimiterState)
    (key : String) : ℚ × StakeLimiterState :=
  if ¬ isListTruthy st.whitelist then (1000, st)
  else
    let st' := if now - st.keyRatioAge > st.maxCacheAge then
        { st with keyRatio := ctx.refreshRatios, keyRatioAge := now }
      else st
    let ratio := (lookupStr st'.keyRatio key).getD 0
    if ratio = 0 then (0, st') else (ratio / st'.epoch, st')

/-- `_get_key_ratio_per_epoch`: the refresh ratio scaled back by the
epoch length. -/
def getKeyRatioPerEpoch (ctx : StakeCtx) (now : ℚ) (st : StakeLimiterState)
    (key : String) : ℚ × StakeLimiterState :=
  match getKeyRefreshRatio ctx now st key with
  | (r, st') => (r * st'.epoch, st')

/-- `_fill`: a new bucket starts with `int(max(1, ratio_per_epoch))`
tokens — at least the one initial token. -/
def fill (ctx : StakeCtx) (now : ℚ) (st : StakeLimiterState)
    (key : String) : StakeLimiterState :=
  match getKeyRatioPerEpoch ctx now st key with
  | (rpe, st') => setTokens now st' key ((ratTruncate (max 1 rpe) : Int) : ℚ)

/-- `_refill`: no bucket yet ⇒ `_fill`; otherwise add
`floor((now - last_seen) * key_rate)` tokens capped at
`max(key_ratio.values())` (sink overflow), leaving the bucket untouched
when the computed refill is not positive. `max` of an empty ratio map
raises `ValueError`, as Python's `max` does. -/
def refill (ctx : StakeCtx) (now : ℚ) (st : StakeLimiterState)
    (key : String) : Except PyExc StakeLimiterState :=
  match lookupStr st.buckets key with
  | none => Except.ok (fill ctx now st key)
  | some (tokens, lastSeen) =>
      match getKeyRefreshRatio ctx now st key with
      | (keyRate, st') =>
          let newTokens : Int := ⌊(now - lastSeen) * keyRate⌋
          if newTokens ≤ 0 then Except.ok st'
          else
            match pyMax (st'.keyRatio.map Prod.snd) with
            | none => Except.error ⟨"ValueError", "max() arg is an empty sequence"⟩
            | some m =>
                Except.ok (setTokens now st' key
                  (min (tokens + (newTokens : ℚ)) m))

/-- `_remaining`: refill, then the key's token count (0 for an absent
bucket). -/
def remainingTokens (ctx : StakeCtx) (now : ℚ) (st : StakeLimiterState)
    (key : String) : Except PyExc (ℚ × StakeLimiterState) :=
  match refill ctx now st key with
  | Except.error e => Except.error e
  | Except.ok st' =>
      Except.ok (((lookupStr st'.buckets key).getD (0, 0)).1, st')

/-- `allow`: with a falsy whitelist validation is disabled and every
call is allowed without touching any bucket; otherwise (`_allow` under
the lock) one token is consumed when at least one is available. -/
def allow (ctx : StakeCtx) (now : ℚ) (st : StakeLimiterState)
    (key : String) : Except PyExc (Bool × StakeLimiterState) :=
  if ¬ isListTruthy st.whitelist then Except.ok (true, st)
  else
    match remainingTokens ctx now st key with
    | Except.error e => Except.error e
    | Except.ok (tokens, st') =>
        if tokens ≥ 1 then
          Except.ok (true, setTokens now st' key (tokens - 1))
        else Except.ok (false, st')

/-- `retry_after` / `_retry_after`: 0 when at least one token remains;
otherwise `assert key_rate > 0` — an `AssertionError` when the key's
refill rate is 0 — then `ceil(1 / key_rate)`. -/
def retryAfter (ctx : StakeCtx) (now : ℚ) (st : StakeLimiterState)
    (key : String) : Except PyExc (Int × StakeLimiterState) :=
  match remainingTokens ctx now st key with
  | Except.error e => Except.error e
  | Except.ok (tokens, st') =>
      if tokens ≥ 1 then Except.ok (0, st')
      else
        match getKeyRefreshRatio ctx now st' key with
        | (keyRate, st'') =>
            if 0 < keyRate then Except.ok (⌈1 / keyRate⌉, st'')
            else Except.error ⟨"AssertionError", "assert key_rate > 0"⟩

/-! ## Claim C5 -/

/-- Chain context for C5: the stake snapshot is empty — the caller has
0 staked balance, so its refill rate is 0. -/
def c5Ctx : StakeCtx := ⟨[]⟩

/-- C5 initial limiter state: whitelist `[0]` (stake validation on),
empty ratio cache, no buckets. -/
def c5St0 : StakeLimiterState := ⟨[], some [0], [], 0, 600, 800⟩

/-- C5 limiter state after the first allowed call: the initial token
has been consumed. -/
def c5St2 : StakeLimiterState := ⟨[("k", (0, 0))], some [0], [], 0, 600, 800⟩

/-- C5 (code bug): a caller with 0 staked balance (refill rate 0) under
an active subnets whitelist gets the one initial token — the first call
is allowed — the immediate second call is refused, and `retry_after`
then hits `assert key_rate > 0` and raises `AssertionError` instead of
returning `ceil(1 / refill_rate)` seconds: the 429-with-retry-after
response of the spec's scenario C can never be produced for such a
caller. -/
theorem claim_C5_retry_after_asserts :
    allow c5Ctx 0 c5St0 "k" = Except.ok (true, c5St2) ∧
    allow c5Ctx 1 c5St2 "k" = Except.ok (false, c5St2) ∧
    retryAfter c5Ctx 1 c5St2 "k" =
      Except.error ⟨"AssertionError", "assert key_rate > 0"⟩ := by
  have hmax : max (1 : ℚ) 0 = 1 := max_eq_left (by norm_num)
  have hr0 : getKeyRefreshRatio c5Ctx 0 c5St0 "k" = (0, c5St0) := by
    norm_num [getKeyRefreshRatio, isListTruthy, c5Ctx, c5St0, lookupStr]
  have hr2 : getKeyRefreshRatio c5Ctx 1 c5St2 "k" = (0, c5St2) := by
    norm_num [getKeyRefreshRatio, isListTruthy, c5Ctx, c5St2, lookupStr]
  have hfill : fill c5Ctx 0 c5St0 "k" =
      ⟨[("k", (1, 0))], some [0], [], 0, 600, 800⟩ := by
    rw [fill, getKeyRatioPerEpoch, hr0]
    norm_num [setTokens, ratTruncate, hmax, c5St0, setAssoc]
  have hrefill0 : refill c5Ctx 0 c5St0 "k" =
      Except.ok ⟨[("k", (1, 0))], some [0], [], 0, 600, 800⟩ := by
    rw [refill]
    have hlk : lookupStr c5St0.buckets "k" = none := rfl
    rw [hlk, hfill]
  have hrem0 : remainingTokens c5Ctx 0 c5St0 "k" =
      Except.ok (1, ⟨[("k", (1, 0))], some [0], [], 0, 600, 800⟩) := by
    rw [remainingTokens, hrefill0]
    rfl
  have hrefill2 : refill c5Ctx 1 c5St2 "k" = Except.ok c5St2 := by
    rw [refill]
    have hlk : lookupStr c5St2.buckets "k" = some (0, 0) := rfl
    rw [hlk, hr2]
    norm_num
  have hrem2 : remainingTokens c5Ctx 1 c5St2 "k" = Except.ok (0, c5St2) := by
    rw [remainingTokens, hrefill2]
    rfl
  refine ⟨?_, ?_, ?_⟩
  · rw [allow]
    have hwl : isListTruthy c5St0.whitelist = true := rfl
    rw [hwl]
    simp only [not_true_eq_false, if_false, hrem0]
    norm_num [setTokens, setAssoc, c5St2]
  · rw [allow]
    have hwl : isListTruthy c5St2.whitelist = true := rfl
    rw [hwl]
    simp only [not_true_eq_false, if_false, hrem2]
    norm_num
  · rw [retryAfter, hrem2]
    simp only [hr2]
    norm_num

/-! ## Claim C8 -/

/-- C8: for a key with an existing bucket (and a fresh ratio cache,
whitelist active), the lazy refill adds `floor((now - last_seen) *
key_rate)` tokens, capping the result at the maximum per-epoch ratio
observed across all keys of the current stake snapshot
(`max(key_ratio.values())`, not the key's own capacity), and leaves the
limiter state unchanged when the computed refill is zero or
negative. -/
theorem claim_C8_refill_formula
    (ctx : StakeCtx) (now : ℚ) (st : StakeLimiterState) (key : String)
    (tokens lastSeen keyRate : ℚ) (n : Int)
    (hbucket : lookupStr st.buckets key = some (tokens, lastSeen))
    (hfresh : ¬ now - st.keyRatioAge > st.maxCacheAge)
    (hwl : isListTruthy st.whitelist = true)
    (hrate : (getKeyRefreshRatio ctx now st key).1 = keyRate)
    (hn : n = ⌊(now - lastSeen) * keyRate⌋) :
    (n ≤ 0 → refill ctx now st key = Except.ok st) ∧
    (0 < n → ∀ m, pyMax (st.keyRatio.map Prod.snd) = some m →
      refill ctx now st key =
        Except.ok (setTokens now st key (min (tokens + (n : ℚ)) m))) := by
  have hsnd : (getKeyRefreshRatio ctx now st key).2 = st := by
    rw [getKeyRefreshRatio]
    rw [hwl]
    simp only [not_true_eq_false, if_false, if_neg hfresh]
    split
    · rfl
    · rfl
  have hpair : getKeyRefreshRatio ctx now st key = (keyRate, st) :=
    Prod.ext hrate hsnd
  have hbase : refill ctx now st key =
      (if (⌊(now - lastSeen) * keyRate⌋ : Int) ≤ 0 then Except.ok st
       else
        match pyMax (st.keyRatio.map Prod.snd) with
        | none => Except.error ⟨"ValueError", "max() arg is an empty sequence"⟩
        | some m =>
            Except.ok (setTokens now st key
              (min (tokens + ((⌊(now - lastSeen) * keyRate⌋ : Int) : ℚ)) m))) := by
    rw [refill, hbucket, hpair]
  constructor
  · intro hle
    rw [hn] at hle
    rw [hbase, if_pos hle]
  · intro hpos m hm
    rw [hn] at hpos
    rw [hbase, if_neg (by omega), hm, ← hn]

/-- Stake snapshot context for the C8 witness. -/
def c8Ctx : StakeCtx := ⟨[]⟩

/-- Limiter state for the C8 witness: key `"k"` holds 1 token since
time 0; the snapshot gives `"k"` per-epoch ratio 2 and `"j"` ratio 5
(so the sink-overflow cap is 5). -/
def c8St : StakeLimiterState :=
  ⟨[("k", (1, 0))], some [0], [("k", 2), ("j", 5)], 0, 600, 800⟩

/-- Witness for C8: at now = 400 the key's rate is 2/800, the computed
refill is `floor(400 * 2/800) = 1 > 0` and the bucket becomes
`min(1 + 1, 5) = 2` tokens at time 400; at now = 0 the computed refill
is 0 and the state is unchanged. -/
theorem claim_C8_witness :
    refill c8Ctx 400 c8St "k" =
      Except.ok ⟨[("k", (2, 400))], some [0], [("k", 2), ("j", 5)], 0, 600, 800⟩ ∧
    refill c8Ctx 0 c8St "k" = Except.ok c8St := by
  constructor
  · have h := (claim_C8_refill_formula c8Ctx 400 c8St "k" 1 0 (2 / 800) 1
      rfl (by norm_num [c8St]) rfl
      (by norm_num [getKeyRefreshRatio, isListTruthy, c8St, lookupStr])
      (by norm_num)).2 (by norm_num) 5 (by norm_num [pyMax, c8St])
    rw [h]
    norm_num [setTokens, setAssoc, c8St]
  · exact (claim_C8_refill_formula c8Ctx 0 c8St "k" 1 0 (2 / 800) 0
      rfl (by norm_num [c8St]) rfl
      (by norm_num [getKeyRefreshRatio, isListTruthy, c8St, lookupStr])
      (by norm_num)).1 (by norm_num)

/-! ## Claim C10 -/

/-- C10: a `StakeLimiter` constructed with an empty (not only absent)
subnets whitelist is in the validation-disabled escape hatch: `allow`
returns true for every key without consulting or mutating any bucket
(the state is returned unchanged), and the reported key refresh ratio
is the fixed test-mode value 1000 for every key — the falsiness of the
whitelist triggers the escape hatch. -/
theorem claim_C10_empty_whitelist_escape_hatch
    (ctx : StakeCtx) (now : ℚ) (st : StakeLimiterState) (key : String)
    (hwl : st.whitelist = some []) :
    allow ctx now st key = Except.ok (true, st) ∧
    getKeyRefreshRatio ctx now st key = (1000, st) := by
  have hfalsy : isListTruthy st.whitelist = false := by
    rw [hwl]
    rfl
  constructor
  · rw [allow, hfalsy]
    rfl
  · rw [getKeyRefreshRatio, hfalsy]
    rfl

/-- Witness for C10 at a concrete state with a non-empty bucket map and
snapshot: the bucket of `"a"` is neither consulted nor mutated and the
ratio reported for an unknown key is 1000. -/
theorem claim_C10_witness :
    allow ⟨[("a", 7)]⟩ 3 ⟨[("a", (5, 0))], some [], [("a", 2)], 0, 600, 800⟩
      "zzz" =
      Except.ok (true, ⟨[("a", (5, 0))], some [], [("a", 2)], 0, 600, 800⟩) ∧
    getKeyRefreshRatio ⟨[("a", 7)]⟩ 3
      ⟨[("a", (5, 0))], some [], [("a", 2)], 0, 600, 800⟩ "zzz" =
      (1000, ⟨[("a", (5, 0))], some [], [("a", 2)], 0, 600, 800⟩) :=
  claim_C10_empty_whitelist_escape_hatch ⟨[("a", 7)]⟩ 3
    ⟨[("a", (5, 0))], some [], [("a", 2)], 0, 600, 800⟩ "zzz" rfl

/-! ## Claim C9 -/

/-- Dummy protocol context for the C9 instances. -/
def c9Ctx : ProtoCtx :=
  ⟨fun _ _ _ => [9], fun _ _ _ => false, fun _ => none, fun _ => none⟩

/-- C9 counterexample: `sign` of a keypair whose declared scheme is
ED25519 (tag 0) raises the plain built-in `Exception` with message
"Crypto type 0 not supported" — not an `UnsupportedCryptoError`, a
class that exists nowhere in the code base. -/
theorem claim_C9_counterexample :
    signerSign c9Ctx ⟨[1], [2], 0, "addr"⟩ "d" =
      Except.error ⟨"Exception", "Crypto type 0 not supported"⟩ ∧
    ("Exception" : String) ≠ "UnsupportedCryptoError" := by
  constructor
  · rfl
  · decide

/-- C9 (amended): `sign` fails — with the generic built-in `Exception`
("Crypto type n not supported") — whenever the keypair's declared
scheme is not SR25519 (tag 1), and returns the sr25519 signature when
the scheme is SR25519. -/
theorem claim_C9_amended_sign_unsupported
    (ctx : ProtoCtx) (kp : Keypair) (data : String) :
    (kp.cryptoType ≠ 1 → signerSign ctx kp data =
      Except.error ⟨"Exception",
        "Crypto type " ++ toString kp.cryptoType ++ " not supported"⟩) ∧
    (kp.cryptoType = 1 → signerSign ctx kp data =
      Except.ok (ctx.srSign kp.publicKey kp.privateKey data)) := by
  constructor
  · intro h
    simp [signerSign, h]
  · intro h
    simp [signerSign, h]

/-- Witness for C9's amended claim: an ED25519 keypair makes `sign`
raise the generic `Exception`, an SR25519 keypair yields the sr25519
signature. -/
theorem claim_C9_amended_witness :
    signerSign c9Ctx ⟨[1], [2], 0, "addr"⟩ "d" =
      Except.error ⟨"Exception", "Crypto type 0 not supported"⟩ ∧
    signerSign c9Ctx ⟨[1], [2], 1, "addr"⟩ "d" = Except.ok [9] := by
  constructor
  · exact (claim_C9_amended_sign_unsupported c9Ctx ⟨[1], [2], 0, "addr"⟩
      "d").1 (by decide)
  · exact (claim_C9_amended_sign_unsupported c9Ctx ⟨[1], [2], 1, "addr"⟩
      "d").2 rfl

end Communex
